import Mathlib

/-!
Verification of the social feed / relationship-graph core of the repository
(`social_media_api`): a shallow embedding of the request handlers in
`posts/views.py` (`like_post`, `unlike_post`, `user_feed`) and
`accounts/views.py` (`FollowUserView.post`, `UnfollowUserView.post`),
together with proofs of the specified properties.

Modelling decisions, all taken from the source:
* User identities and post primary keys are `Nat` (Django auto primary keys).
* The stores (users, follow edges, posts, likes, notifications) are lists in
  insertion order, mirroring database tables whose unordered scans return
  rows in primary-key (= insertion) order.
* `ManyRelatedManager.add` inserts the through-row only when absent;
  `remove` deletes matching rows; `Like.objects.get_or_create` creates the
  row only when no matching row exists.  These are the framework semantics
  the views rely on.
* `order_by('-created_at')` names a single sort key, so the embedding sorts
  by `createdAt` descending with a stable sort (rows with equal keys keep
  table order); no secondary key appears in the source.
* Responses are modelled as the pair (HTTP status, detail string) for the
  like/unlike handlers, and as the HTTP status alone for follow/unfollow
  (whose message texts the claims never mention).
-/

namespace SocialMediaApi

/-- A row of the Post table: `id` (primary key), `author` (user id), body
content and creation timestamp (`created_at`, modelled as `Nat`). -/
structure Post where
  id : Nat
  author : Nat
  content : String
  createdAt : Nat
deriving DecidableEq, Repr

/-- A row of the Like table: the unique (user, post) pair. -/
structure Like where
  user : Nat
  post : Nat
deriving DecidableEq, Repr

/-- A row of the Notification table, as created by `like_post`:
recipient, actor, verb and the liked post id (`object_id`).  The
content-type field is the constant model tag of `Post` and the
server-assigned timestamp is unused by every claim, so neither is kept. -/
structure Notification where
  recipient : Nat
  actor : Nat
  verb : String
  objectId : Nat
deriving DecidableEq, Repr

/-- The persistent state the handlers read and write: registered users,
the follow through-table (follower, followee), posts, likes and
notifications, each in insertion order. -/
structure Store where
  users : List Nat
  following : List (Nat × Nat)
  posts : List Post
  likes : List Like
  notifications : List Notification
deriving DecidableEq, Repr

/-- The empty database. -/
def initStore : Store :=
  { users := [], following := [], posts := [], likes := [], notifications := [] }

/-- `generics.get_object_or_404(Post, pk=pk)`: the post with primary key
`pk`, if any. -/
def findPost (s : Store) (pk : Nat) : Option Post :=
  s.posts.find? (fun p => p.id = pk)

/-- Whether a Like row for (user, post) exists — the `created = False`
outcome of `Like.objects.get_or_create(user=..., post=...)`. -/
def isLiked (s : Store) (u postId : Nat) : Bool :=
  s.likes.any (fun l => l.user = u && l.post = postId)

/-- The Notification row `like_post` creates:
`Notification.objects.create(recipient=post.author, actor=request.user,
verb='liked your post', ..., object_id=post.id)`. -/
def mkLikeNotification (post : Post) (actor : Nat) : Notification :=
  { recipient := post.author, actor := actor, verb := "liked your post",
    objectId := post.id }

/-- `like_post(request, pk)` (posts/views.py lines 13–28): 404 when the post
is unknown; otherwise `get_or_create` the Like; when it already existed,
400 "Already liked" with no state change; when newly created, record the
Like, create the notification and answer 200 "Post liked". -/
def like_post (s : Store) (u pk : Nat) : Store × Nat × String :=
  match findPost s pk with
  | none => (s, 404, "Not found")
  | some post =>
    if isLiked s u post.id then
      (s, 400, "Already liked")
    else
      ({ s with
          likes := s.likes ++ [{ user := u, post := post.id }],
          notifications := s.notifications ++ [mkLikeNotification post u] },
       200, "Post liked")

/-- `unlike_post(request, pk)` (posts/views.py lines 31–40): 404 when the
post is unknown; otherwise get the Like row and delete it (200
"Post unliked"), or, when `Like.DoesNotExist`, answer 400 with the
source's literal detail string (typographic apostrophe) and change
nothing. -/
def unlike_post (s : Store) (u pk : Nat) : Store × Nat × String :=
  match findPost s pk with
  | none => (s, 404, "Not found")
  | some post =>
    if isLiked s u post.id then
      ({ s with likes := s.likes.eraseP (fun l => l.user = u && l.post = post.id) },
       200, "Post unliked")
    else
      (s, 400, "You haven’t liked this post")

/-- `FollowUserView.post(request, user_id)` (accounts/views.py lines 48–58):
404 when the target user is unknown; 400 ("You can't follow yourself",
the `SelfFollowError` of the spec) when target = requester;
otherwise `request.user.following.add(target_user)` — which inserts the
edge only when absent — and 200. -/
def followUser (s : Store) (requester userId : Nat) : Store × Nat :=
  if userId ∈ s.users then
    if userId = requester then (s, 400)
    else if (requester, userId) ∈ s.following then (s, 200)
    else ({ s with following := s.following ++ [(requester, userId)] }, 200)
  else (s, 404)

/-- `UnfollowUserView.post(request, user_id)` (accounts/views.py lines
62–69): 404 when the target user is unknown; otherwise
`request.user.following.remove(target_user)` — delete the matching
edges, absence being no error — and 200. -/
def unfollowUser (s : Store) (requester userId : Nat) : Store × Nat :=
  if userId ∈ s.users then
    ({ s with
        following := s.following.filter (fun e => !(e.1 = requester && e.2 = userId)) },
     200)
  else (s, 404)

/-- `request.user.following.all()`: the followees of `u`, read off the
follow through-table. -/
def followees (s : Store) (u : Nat) : List Nat :=
  (s.following.filter (fun e => e.1 = u)).map Prod.snd

/-- Stable insertion of a post into a list sorted by `createdAt`
descending: the new post goes in front of the first element whose
timestamp it reaches, so equal-timestamp elements keep their order. -/
def insertPost (x : Post) : List Post → List Post
  | [] => [x]
  | y :: ys =>
    if y.createdAt ≤ x.createdAt then x :: y :: ys else y :: insertPost x ys

/-- `order_by('-created_at')`: stable sort by creation timestamp
descending.  The source names no secondary sort key, so rows with equal
timestamps keep their table order. -/
def sortPostsDesc : List Post → List Post
  | [] => []
  | x :: xs => insertPost x (sortPostsDesc xs)

/-- `user_feed(request)` (posts/views.py lines 43–49):
`Post.objects.filter(author__in=request.user.following.all())
.order_by('-created_at')`, serialised in full (no pagination in the
handler). -/
def user_feed (s : Store) (u : Nat) : List Post :=
  sortPostsDesc (s.posts.filter (fun p => decide (p.author ∈ followees s u)))

/-- The mutating requests of the modelled core, for reachability
arguments: user registration, post creation, follow, unfollow, like,
unlike. -/
inductive Op where
  | register (u : Nat)
  | createPost (p : Post)
  | follow (requester target : Nat)
  | unfollow (requester target : Nat)
  | like (u pk : Nat)
  | unlike (u pk : Nat)

/-- Effect of one request on the store. -/
def applyOp (s : Store) : Op → Store
  | .register u => { s with users := s.users ++ [u] }
  | .createPost p => { s with posts := s.posts ++ [p] }
  | .follow a b => (followUser s a b).1
  | .unfollow a b => (unfollowUser s a b).1
  | .like u pk => (like_post s u pk).1
  | .unlike u pk => (unlike_post s u pk).1

/-- Stores reachable from the empty database by any request sequence. -/
inductive Reachable : Store → Prop where
  | init : Reachable initStore
  | step (s : Store) (op : Op) : Reachable s → Reachable (applyOp s op)

/-- The follow graph has no self-edge. -/
def NoSelfEdges (s : Store) : Prop := ∀ e ∈ s.following, e.1 ≠ e.2

/-- Number of Like rows for the pair (user, post). -/
def likesFor (s : Store) (u postId : Nat) : Nat :=
  s.likes.countP (fun l => l.user = u && l.post = postId)

/-- Number of Notification rows with the given actor and subject post. -/
def likeNotifsFor (s : Store) (u postId : Nat) : Nat :=
  s.notifications.countP (fun n => n.actor = u && n.objectId = postId)

end SocialMediaApi

namespace SocialMediaApi

/-! ### Helper lemmas -/

theorem append_singleton_ne {α : Type} (l : List α) (x : α) : l ++ [x] ≠ l := by
  intro h
  have hlen := congrArg List.length h
  simp at hlen

theorem mem_insertPost {a x : Post} {l : List Post} :
    a ∈ insertPost x l ↔ a = x ∨ a ∈ l := by
  induction l with
  | nil => simp [insertPost]
  | cons y ys ih =>
    simp only [insertPost]
    split
    · simp [List.mem_cons]
    · simp only [List.mem_cons, ih]
      tauto

theorem pairwise_insertPost {x : Post} {l : List Post}
    (h : l.Pairwise (fun a b => b.createdAt ≤ a.createdAt)) :
    (insertPost x l).Pairwise (fun a b => b.createdAt ≤ a.createdAt) := by
  induction l with
  | nil => simp [insertPost]
  | cons y ys ih =>
    rw [List.pairwise_cons] at h
    obtain ⟨hy, hys⟩ := h
    simp only [insertPost]
    split
    · rename_i hle
      rw [List.pairwise_cons]
      refine ⟨?_, List.pairwise_cons.mpr ⟨hy, hys⟩⟩
      intro b hb
      rcases List.mem_cons.mp hb with rfl | hb
      · exact hle
      · exact le_trans (hy b hb) hle
    · rename_i hgt
      rw [List.pairwise_cons]
      refine ⟨?_, ih hys⟩
      intro b hb
      rcases mem_insertPost.mp hb with rfl | hb
      · exact le_of_not_le hgt
      · exact hy b hb

theorem mem_sortPostsDesc {a : Post} {l : List Post} :
    a ∈ sortPostsDesc l ↔ a ∈ l := by
  induction l with
  | nil => simp [sortPostsDesc]
  | cons x xs ih =>
    simp only [sortPostsDesc, mem_insertPost, List.mem_cons, ih]

theorem sortPostsDesc_pairwise (l : List Post) :
    (sortPostsDesc l).Pairwise (fun a b => b.createdAt ≤ a.createdAt) := by
  induction l with
  | nil => simp [sortPostsDesc]
  | cons x xs ih =>
    simp only [sortPostsDesc]
    exact pairwise_insertPost ih

end SocialMediaApi

namespace SocialMediaApi

/-! ### Concrete stores used by counterexamples and witnesses -/

/-- Two posts by user 2 with the same creation timestamp, inserted with
ascending ids. -/
def c1Post1 : Post := { id := 1, author := 2, content := "a", createdAt := 5 }

/-- Second of the two equal-timestamp posts. -/
def c1Post2 : Post := { id := 2, author := 2, content := "b", createdAt := 5 }

/-- Store in which user 1 follows user 2 and user 2 has authored
`c1Post1` and `c1Post2`. -/
def c1Store : Store :=
  { users := [1, 2], following := [(1, 2)], posts := [c1Post1, c1Post2],
    likes := [], notifications := [] }

/-- Claim C1 (counterexample): the feed handler orders only by
`-created_at`; two posts of a followee with equal timestamps come back in
table order — id 1 before id 2 — not in post-id-descending order as the
claim requires, so the claimed tie-break (and with it strict, deterministic
id-descending ordering of ties) fails. -/
theorem C1_tie_break_counterexample :
    user_feed c1Store 1 = [c1Post1, c1Post2]
    ∧ c1Post1.createdAt = c1Post2.createdAt
    ∧ c1Post1.id < c1Post2.id
    ∧ ¬ ((user_feed c1Store 1).Pairwise
          (fun a b => b.createdAt < a.createdAt
            ∨ (b.createdAt = a.createdAt ∧ b.id < a.id))) := by
  refine ⟨by decide, by decide, by decide, ?_⟩
  intro h
  have h1 : user_feed c1Store 1 = [c1Post1, c1Post2] := by decide
  rw [h1, List.pairwise_cons] at h
  have := h.1 c1Post2 (by decide)
  simp [c1Post1, c1Post2] at this

/-- Claim C1 (amended): `user_feed` returns the followees' posts sorted by
creation timestamp in non-increasing order; the source specifies no
secondary sort key, so the relative order of equal-timestamp posts is the
store order, not post id descending. -/
theorem C1_feed_sorted_by_timestamp_desc (s : Store) (u : Nat) :
    (user_feed s u).Pairwise (fun a b => b.createdAt ≤ a.createdAt) :=
  sortPostsDesc_pairwise _

/-- Claim C2: a Notification row is appended if and only if the operation
was a `like_post` that newly created the Like row (the notifications table
changes exactly when the likes table does, by one appended row built by
`mkLikeNotification`), and `unlike_post` never touches the notifications
table. -/
theorem C2_notification_iff_new_like (s : Store) (u pk : Nat) :
    ((like_post s u pk).1.notifications ≠ s.notifications
      ↔ (like_post s u pk).1.likes ≠ s.likes)
    ∧ ((like_post s u pk).1.notifications =
        (match findPost s pk with
         | none => s.notifications
         | some post =>
           if isLiked s u post.id then s.notifications
           else s.notifications ++ [mkLikeNotification post u]))
    ∧ (unlike_post s u pk).1.notifications = s.notifications := by
  refine ⟨?_, ?_, ?_⟩
  · unfold like_post
    cases findPost s pk with
    | none => simp
    | some post =>
      by_cases h : isLiked s u post.id
      · simp [h]
      · simp only [h, Bool.false_eq_true, if_false]
        exact iff_of_true (append_singleton_ne _ _) (append_singleton_ne _ _)
  · unfold like_post
    cases findPost s pk with
    | none => rfl
    | some post =>
      by_cases h : isLiked s u post.id <;> simp [h]
  · unfold unlike_post
    cases findPost s pk with
    | none => rfl
    | some post =>
      by_cases h : isLiked s u post.id <;> simp [h]

end SocialMediaApi

namespace SocialMediaApi

/-- A post by user 2, used as the target of like/unlike scenarios. -/
def w3Post : Post := { id := 10, author := 2, content := "hello", createdAt := 7 }

/-- Store with users 1 and 2 and the single post `w3Post`, no likes and no
notifications yet. -/
def w3Store : Store :=
  { users := [1, 2], following := [], posts := [w3Post], likes := [],
    notifications := [] }

/-- Evaluation of `like_post` when the post exists and is not yet liked:
the Like and the Notification are appended and the answer is 200. -/
theorem like_post_new (s : Store) (u pk : Nat) (post : Post)
    (hfind : findPost s pk = some post)
    (hnl : isLiked s u post.id = false) :
    like_post s u pk =
      ({ s with
          likes := s.likes ++ [{ user := u, post := post.id }],
          notifications := s.notifications ++ [mkLikeNotification post u] },
       200, "Post liked") := by
  unfold like_post
  rw [hfind]
  simp [hnl]

/-- Evaluation of `like_post` when the post exists and is already liked:
no state change, answer 400 "Already liked". -/
theorem like_post_already (s : Store) (u pk : Nat) (post : Post)
    (hfind : findPost s pk = some post)
    (hl : isLiked s u post.id = true) :
    like_post s u pk = (s, 400, "Already liked") := by
  unfold like_post
  rw [hfind]
  simp [hl]

/-- Claim C3: starting from a state where post `pk` resolves to `post`,
user `u` has not liked it and no notification for (actor `u`, subject
`post`) exists, the first `like_post` answers 200 "Post liked", the second
answers 400 "Already liked" without changing the store, and afterwards
exactly one Like row and exactly one Notification row for the pair
exist. -/
theorem C3_like_twice (s : Store) (u pk : Nat) (post : Post)
    (hfind : findPost s pk = some post)
    (hnl : isLiked s u post.id = false)
    (hn0 : likeNotifsFor s u post.id = 0) :
    (like_post s u pk).2 = (200, "Post liked")
    ∧ (like_post (like_post s u pk).1 u pk).2 = (400, "Already liked")
    ∧ (like_post (like_post s u pk).1 u pk).1 = (like_post s u pk).1
    ∧ likesFor (like_post s u pk).1 u post.id = 1
    ∧ likeNotifsFor (like_post s u pk).1 u post.id = 1 := by
  have hstep := like_post_new s u pk post hfind hnl
  have hl0 : likesFor s u post.id = 0 := by
    unfold likesFor
    rw [List.countP_eq_zero]
    intro a ha
    have := List.any_eq_false.mp hnl a ha
    simpa using this
  have hfind2 : findPost (like_post s u pk).1 pk = some post := by
    rw [hstep]
    exact hfind
  have hliked2 : isLiked (like_post s u pk).1 u post.id = true := by
    rw [hstep]
    unfold isLiked at hnl ⊢
    simp [List.any_append, hnl]
  have hsecond := like_post_already (like_post s u pk).1 u pk post hfind2 hliked2
  refine ⟨by rw [hstep], by rw [hsecond], by rw [hsecond], ?_, ?_⟩
  · unfold likesFor at hl0 ⊢
    rw [hstep]
    simp only [List.countP_append, hl0]
    simp
  · unfold likeNotifsFor at hn0 ⊢
    rw [hstep]
    simp only [List.countP_append, hn0]
    simp [mkLikeNotification]

/-- Witness for C3 at the concrete store `w3Store`, user 1 liking post
10 twice. -/
theorem C3_like_twice_witness :
    (like_post w3Store 1 10).2 = (200, "Post liked")
    ∧ (like_post (like_post w3Store 1 10).1 1 10).2 = (400, "Already liked")
    ∧ (like_post (like_post w3Store 1 10).1 1 10).1 = (like_post w3Store 1 10).1
    ∧ likesFor (like_post w3Store 1 10).1 1 w3Post.id = 1
    ∧ likeNotifsFor (like_post w3Store 1 10).1 1 w3Post.id = 1 :=
  C3_like_twice w3Store 1 10 w3Post (by decide) (by decide) (by decide)

end SocialMediaApi

namespace SocialMediaApi

theorem countP_eraseP_self {α : Type} (p : α → Bool) (l : List α) :
    (l.eraseP p).countP p = l.countP p - (if l.any p then 1 else 0) := by
  induction l with
  | nil => simp
  | cons x xs ih =>
    by_cases h : p x
    · simp [List.eraseP_cons, h, List.countP_cons, List.any_cons]
    · simp [List.eraseP_cons, h, List.countP_cons, List.any_cons, ih]

/-- The exact detail string quoted by the specification for a failed
unlike, with an ASCII apostrophe (code point 39).  Stated for comparison
with the string the handler actually returns. -/
def claimNotLikedDetail : String :=
  "You haven" ++ String.singleton (Char.ofNat 39) ++ "t liked this post"

/-- Claim C4 (counterexample): unliking a post one has not liked answers
status 400, but the detail string the handler returns — spelled in the
source with the typographic apostrophe U+2019 — is not the string
`"You haven't liked this post"` (ASCII apostrophe) stated by the claim. -/
theorem C4_detail_string_counterexample :
    (unlike_post w3Store 1 10).2.1 = 400
    ∧ (unlike_post w3Store 1 10).2.2 ≠ claimNotLikedDetail := by
  constructor
  · decide
  · decide

/-- Claim C4 (amended): for an existing post, `unlike_post` removes the
Like row and answers 200 "Post unliked" when the Like exists (with at
most one Like row per pair, as every reachable store has); when no Like
exists it changes nothing and answers 400 with the source's detail string
"You haven’t liked this post" (typographic apostrophe); and neither
outcome appends a Notification. -/
theorem C4_unlike_behavior (s : Store) (u pk : Nat) (post : Post)
    (hfind : findPost s pk = some post)
    (hone : likesFor s u post.id ≤ 1) :
    (isLiked s u post.id = true →
      (unlike_post s u pk).2 = (200, "Post unliked")
      ∧ likesFor (unlike_post s u pk).1 u post.id = 0)
    ∧ (isLiked s u post.id = false →
      (unlike_post s u pk).1 = s
      ∧ (unlike_post s u pk).2 = (400, "You haven’t liked this post"))
    ∧ (unlike_post s u pk).1.notifications = s.notifications := by
  have heval : unlike_post s u pk =
      (if isLiked s u post.id then
        ({ s with likes := s.likes.eraseP (fun l => l.user = u && l.post = post.id) },
         200, "Post unliked")
      else (s, 400, "You haven’t liked this post")) := by
    unfold unlike_post
    rw [hfind]
  refine ⟨?_, ?_, ?_⟩
  · intro hl
    rw [heval, if_pos hl]
    refine ⟨rfl, ?_⟩
    unfold likesFor at hone ⊢
    show (s.likes.eraseP (fun l => l.user = u && l.post = post.id)).countP
        (fun l => l.user = u && l.post = post.id) = 0
    have hcnt := countP_eraseP_self (fun l => l.user = u && l.post = post.id) s.likes
    unfold isLiked at hl
    rw [hl] at hcnt
    simp only [if_true] at hcnt
    omega
  · intro hnl
    rw [heval, if_neg (by simp [hnl])]
    exact ⟨rfl, rfl⟩
  · rw [heval]
    by_cases h : isLiked s u post.id
    · rw [if_pos h]
    · rw [if_neg (by simp [h])]

/-- Witness for C4: concrete runs at `w3Store` (post 10, user 1), in the
not-yet-liked state and in the state right after a successful like. -/
theorem C4_unlike_behavior_witness :
    ((isLiked w3Store 1 w3Post.id = true →
      (unlike_post w3Store 1 10).2 = (200, "Post unliked")
      ∧ likesFor (unlike_post w3Store 1 10).1 1 w3Post.id = 0)
    ∧ (isLiked w3Store 1 w3Post.id = false →
      (unlike_post w3Store 1 10).1 = w3Store
      ∧ (unlike_post w3Store 1 10).2 = (400, "You haven’t liked this post"))
    ∧ (unlike_post w3Store 1 10).1.notifications = w3Store.notifications)
    ∧ ((isLiked (like_post w3Store 1 10).1 1 w3Post.id = true →
      (unlike_post (like_post w3Store 1 10).1 1 10).2 = (200, "Post unliked")
      ∧ likesFor (unlike_post (like_post w3Store 1 10).1 1 10).1 1 w3Post.id = 0)
    ∧ (isLiked (like_post w3Store 1 10).1 1 w3Post.id = false →
      (unlike_post (like_post w3Store 1 10).1 1 10).1 = (like_post w3Store 1 10).1
      ∧ (unlike_post (like_post w3Store 1 10).1 1 10).2 =
          (400, "You haven’t liked this post"))
    ∧ (unlike_post (like_post w3Store 1 10).1 1 10).1.notifications =
        (like_post w3Store 1 10).1.notifications) :=
  ⟨C4_unlike_behavior w3Store 1 10 w3Post (by decide) (by decide),
   C4_unlike_behavior (like_post w3Store 1 10).1 1 10 w3Post (by decide) (by decide)⟩

end SocialMediaApi

namespace SocialMediaApi

theorem like_post_following (s : Store) (u pk : Nat) :
    (like_post s u pk).1.following = s.following := by
  unfold like_post
  cases findPost s pk with
  | none => rfl
  | some post => by_cases h : isLiked s u post.id <;> simp [h]

theorem unlike_post_following (s : Store) (u pk : Nat) :
    (unlike_post s u pk).1.following = s.following := by
  unfold unlike_post
  cases findPost s pk with
  | none => rfl
  | some post => by_cases h : isLiked s u post.id <;> simp [h]

theorem followUser_users (s : Store) (a b : Nat) :
    (followUser s a b).1.users = s.users := by
  unfold followUser
  by_cases hb : b ∈ s.users
  · rw [if_pos hb]
    by_cases hba : b = a
    · rw [if_pos hba]
    · rw [if_neg hba]
      by_cases hm : (a, b) ∈ s.following
      · rw [if_pos hm]
      · rw [if_neg hm]
  · rw [if_neg hb]

theorem applyOp_preserves_noSelfEdges (s : Store) (op : Op)
    (h : NoSelfEdges s) : NoSelfEdges (applyOp s op) := by
  cases op with
  | register u => exact h
  | createPost p => exact h
  | follow a b =>
    show NoSelfEdges (followUser s a b).1
    unfold followUser
    by_cases hb : b ∈ s.users
    · rw [if_pos hb]
      by_cases hba : b = a
      · rw [if_pos hba]; exact h
      · rw [if_neg hba]
        by_cases hm : (a, b) ∈ s.following
        · rw [if_pos hm]; exact h
        · rw [if_neg hm]
          intro e he
          rcases List.mem_append.mp he with he | he
          · exact h e he
          · have : e = (a, b) := by simpa using he
            subst this
            exact fun hab => hba (hab.symm)
    · rw [if_neg hb]; exact h
  | unfollow a b =>
    show NoSelfEdges (unfollowUser s a b).1
    unfold unfollowUser
    by_cases hb : b ∈ s.users
    · rw [if_pos hb]
      intro e he
      exact h e (List.mem_of_mem_filter he)
    · rw [if_neg hb]; exact h
  | like u pk =>
    intro e he
    rw [show (applyOp s (Op.like u pk)).following = (like_post s u pk).1.following from rfl,
        like_post_following] at he
    exact h e he
  | unlike u pk =>
    intro e he
    rw [show (applyOp s (Op.unlike u pk)).following = (unlike_post s u pk).1.following from rfl,
        unlike_post_following] at he
    exact h e he

theorem reachable_noSelfEdges {s : Store} (h : Reachable s) : NoSelfEdges s := by
  induction h with
  | init => intro e he; simp [initStore] at he
  | step s op _ ih => exact applyOp_preserves_noSelfEdges s op ih

/-- Claim C5: for an existing user `A` in any reachable store, asking to
follow oneself answers 400 (the spec's `SelfFollowError`) with the store
unchanged, and every reachable store's follow graph is irreflexive. -/
theorem C5_self_follow_rejected (s : Store) (A : Nat)
    (hreach : Reachable s) (hA : A ∈ s.users) :
    followUser s A A = (s, 400) ∧ NoSelfEdges s := by
  refine ⟨?_, reachable_noSelfEdges hreach⟩
  unfold followUser
  rw [if_pos hA, if_pos rfl]

/-- A reachable one-user store: the empty database after registering
user 1. -/
def c5Store : Store := applyOp initStore (Op.register 1)

/-- Witness for C5: user 1 trying to follow themself in `c5Store`. -/
theorem C5_self_follow_rejected_witness :
    followUser c5Store 1 1 = (c5Store, 400) ∧ NoSelfEdges c5Store :=
  C5_self_follow_rejected c5Store 1
    (Reachable.step initStore (Op.register 1) Reachable.init) (by decide)

end SocialMediaApi

namespace SocialMediaApi

theorem mem_followees_iff (s : Store) (A B : Nat) :
    B ∈ followees s A ↔ (A, B) ∈ s.following := by
  constructor
  · intro h
    obtain ⟨e, he, hsnd⟩ := List.mem_map.mp h
    obtain ⟨hmem, hfst⟩ := List.mem_filter.mp he
    have hfst2 : e.1 = A := by simpa using hfst
    have : e = (A, B) := by
      cases e
      simp_all
    rwa [this] at hmem
  · intro h
    exact List.mem_map.mpr ⟨(A, B), List.mem_filter.mpr ⟨h, by simp⟩, rfl⟩

theorem mem_user_feed_iff (s : Store) (A : Nat) (P : Post) :
    P ∈ user_feed s A ↔ P ∈ s.posts ∧ P.author ∈ followees s A := by
  unfold user_feed
  rw [mem_sortPostsDesc, List.mem_filter]
  simp

/-- Claim C6: in any store whose follow graph has no (A, A) self-edge, a
post appears in A's feed exactly when it is stored and its author is
among A's followees; an empty followee set yields the empty feed; and no
post authored by A appears in A's own feed. -/
theorem C6_feed_membership (s : Store) (A : Nat) (P : Post)
    (hself : (A, A) ∉ s.following) :
    (P ∈ user_feed s A ↔ P ∈ s.posts ∧ P.author ∈ followees s A)
    ∧ (followees s A = [] → user_feed s A = [])
    ∧ (P ∈ user_feed s A → P.author ≠ A) := by
  refine ⟨mem_user_feed_iff s A P, ?_, ?_⟩
  · intro hemp
    unfold user_feed
    have hfil : s.posts.filter (fun p => decide (p.author ∈ followees s A)) = [] := by
      rw [List.filter_eq_nil_iff]
      intro p hp
      simp [hemp]
    rw [hfil]
    rfl
  · intro hPf heq
    have hmem := (mem_user_feed_iff s A P).mp hPf
    have : (A, P.author) ∈ s.following := (mem_followees_iff s A P.author).mp hmem.2
    rw [heq] at this
    exact hself this

/-- Witness for C6 at `c1Store` (user 1 follows user 2, post `c1Post1` by
user 2). -/
theorem C6_feed_membership_witness :
    (c1Post1 ∈ user_feed c1Store 1
      ↔ c1Post1 ∈ c1Store.posts ∧ c1Post1.author ∈ followees c1Store 1)
    ∧ (followees c1Store 1 = [] → user_feed c1Store 1 = [])
    ∧ (c1Post1 ∈ user_feed c1Store 1 → c1Post1.author ≠ 1) :=
  C6_feed_membership c1Store 1 c1Post1 (by decide)

theorem followUser_edge_added (s : Store) (A B : Nat) (hne : B ≠ A)
    (hB : B ∈ s.users) : (A, B) ∈ (followUser s A B).1.following := by
  unfold followUser
  rw [if_pos hB, if_neg hne]
  by_cases hm : (A, B) ∈ s.following
  · rw [if_pos hm]
    exact hm
  · rw [if_neg hm]
    simp

/-- Claim C7: for distinct users A and B with B registered, after
`followUser A B` the followees of A contain B, and after a subsequent
`unfollowUser A B` they no longer do. -/
theorem C7_follow_then_unfollow (s : Store) (A B : Nat)
    (hne : A ≠ B) (hB : B ∈ s.users) :
    B ∈ followees (followUser s A B).1 A
    ∧ B ∉ followees (unfollowUser (followUser s A B).1 A B).1 A := by
  have hne2 : B ≠ A := fun h => hne h.symm
  have hmem := followUser_edge_added s A B hne2 hB
  refine ⟨(mem_followees_iff _ A B).mpr hmem, ?_⟩
  intro hmem2
  have hB2 : B ∈ (followUser s A B).1.users := by
    rw [followUser_users]
    exact hB
  have hedge : (A, B) ∈ (unfollowUser (followUser s A B).1 A B).1.following :=
    (mem_followees_iff _ A B).mp hmem2
  revert hedge
  unfold unfollowUser
  rw [if_pos hB2]
  intro hedge
  have := (List.mem_filter.mp hedge).2
  simp at this

/-- Witness for C7: users 1 and 2 in `w3Store`. -/
theorem C7_follow_then_unfollow_witness :
    2 ∈ followees (followUser w3Store 1 2).1 1
    ∧ 2 ∉ followees (unfollowUser (followUser w3Store 1 2).1 1 2).1 1 :=
  C7_follow_then_unfollow w3Store 1 2 (by decide) (by decide)

theorem followUser_already (s : Store) (A B : Nat) (hne : B ≠ A)
    (hB : B ∈ s.users) (hm : (A, B) ∈ s.following) :
    followUser s A B = (s, 200) := by
  unfold followUser
  rw [if_pos hB, if_neg hne, if_pos hm]

/-- Claim C8: following is idempotent — a repeated `followUser A B` (B
registered, B ≠ A) answers 200 and returns the store of the first call
unchanged — and unfollowing an absent edge is not an error: it answers
200 and changes nothing. -/
theorem C8_follow_unfollow_idempotent (s : Store) (A B : Nat)
    (hne : A ≠ B) (hB : B ∈ s.users) :
    followUser (followUser s A B).1 A B = ((followUser s A B).1, 200)
    ∧ ((A, B) ∉ s.following → unfollowUser s A B = (s, 200)) := by
  have hne2 : B ≠ A := fun h => hne h.symm
  constructor
  · have hB2 : B ∈ (followUser s A B).1.users := by
      rw [followUser_users]
      exact hB
    have hmem := followUser_edge_added s A B hne2 hB
    exact followUser_already (followUser s A B).1 A B hne2 hB2 hmem
  · intro habs
    unfold unfollowUser
    rw [if_pos hB]
    have hfil : s.following.filter (fun e => !(e.1 = A && e.2 = B)) = s.following := by
      rw [List.filter_eq_self]
      intro e he
      have hne3 : e ≠ (A, B) := fun h => habs (h ▸ he)
      cases e with
      | mk x y =>
        by_cases hx : x = A
        · by_cases hy : y = B
          · exact absurd (by rw [hx, hy]) hne3
          · simp [hy]
        · simp [hx]
    rw [hfil]

/-- Witness for C8: users 1 and 2 in `w3Store`, with no edge (1, 2) yet. -/
theorem C8_follow_unfollow_idempotent_witness :
    followUser (followUser w3Store 1 2).1 1 2 = ((followUser w3Store 1 2).1, 200)
    ∧ ((1, 2) ∉ w3Store.following → unfollowUser w3Store 1 2 = (w3Store, 200)) :=
  C8_follow_unfollow_idempotent w3Store 1 2 (by decide) (by decide)

end SocialMediaApi

namespace SocialMediaApi

/-- Claim C10: `like_post` never compares the liker with the post's
author — a user liking their own not-yet-liked post succeeds with 200
"Post liked" and appends a Notification whose recipient and actor are
both that user. -/
theorem C10_self_like_notifies_self (s : Store) (U pk : Nat) (post : Post)
    (hfind : findPost s pk = some post)
    (hauthor : post.author = U)
    (hnl : isLiked s U post.id = false) :
    (like_post s U pk).2 = (200, "Post liked")
    ∧ (like_post s U pk).1.notifications =
        s.notifications ++
          [{ recipient := U, actor := U, verb := "liked your post",
             objectId := post.id }] := by
  have hstep := like_post_new s U pk post hfind hnl
  rw [hstep]
  refine ⟨rfl, ?_⟩
  simp [mkLikeNotification, hauthor]

/-- A post authored by user 1. -/
def c10Post : Post := { id := 20, author := 1, content := "mine", createdAt := 3 }

/-- Store in which user 1 has authored `c10Post` and nothing is liked. -/
def c10Store : Store :=
  { users := [1], following := [], posts := [c10Post], likes := [],
    notifications := [] }

/-- Witness for C10: user 1 liking their own post 20 in `c10Store`. -/
theorem C10_self_like_notifies_self_witness :
    (like_post c10Store 1 20).2 = (200, "Post liked")
    ∧ (like_post c10Store 1 20).1.notifications =
        c10Store.notifications ++
          [{ recipient := 1, actor := 1, verb := "liked your post",
             objectId := c10Post.id }] :=
  C10_self_like_notifies_self c10Store 1 20 c10Post (by decide) (by decide) (by decide)

end SocialMediaApi
